import Mathlib

/-!
Verification of the `Plot` class of `qexpy/plotting.py` (a thin
plotting/state-bookkeeping layer).  The collaborator modules
(`qexpy.fitting`, `qexpy.error`, `qexpy.plot_utils`, bokeh) are not part
of the repository sources; where their behaviour matters they are
modelled from the spec (each such definition carries a doc comment
starting with `Modelled from the spec:`).

Numbers are modelled as rationals (the source works with Python floats /
numpy arrays; none of the verified claims depend on floating point).
A Python call that can raise (e.g. an out-of-range list index) is
modelled as an `Option`-returning function, `none` standing for the
raised exception.  Console output (`print`) is modelled as an explicit
log of messages.
-/

namespace QPlot

/-- The bokeh palette `bpal.Set1_9` used by `Plot.__init__`
(`self.color_palette = bpal.Set1_9`): nine fixed colors. -/
def Set1_9 : List String :=
  ["#e41a1c", "#377eb8", "#4daf4a", "#984ea3", "#ff7f00",
   "#ffff33", "#a65628", "#f781bf", "#999999"]

/-- Modelled from the spec: the record the fitting collaborator produces
for one performed fit ("fit-history accessors (function, parameters,
count of fits performed)").  `f` maps the parameter means and an x value
to the fitted y value; `par_reprs` are the display strings of the
fitted parameters. -/
structure FitRecord where
  fname : String
  npars : Nat
  par_reprs : List String
  par_means : List ℚ
  f : List ℚ → ℚ → ℚ
deriving Inhabited

/-- Modelled from the spec: the dataset type of the external fitting
collaborator ("a dataset type exposing x/y extents with margin, residual
extents, a fit operation returning parameter estimates, and fit-history
accessors").  `xmin/xmax/ymin/ymax` are the raw data extents;
`linear_fit_result` is the fit record the collaborator's `fit("linear")`
would produce for this data. -/
structure XYDataSet where
  name : String
  xname : String
  yname : String
  xunits : String
  yunits : String
  xdata : List ℚ
  xmin : ℚ
  xmax : ℚ
  ymin : ℚ
  ymax : ℚ
  yres_range : ℚ × ℚ
  fits : List FitRecord
  linear_fit_result : FitRecord
deriving Inhabited

/-- Modelled from the spec: `dataset.get_x_range(margin)` — the x extent
padded by the margin (spec scenario: x in [0,10], margin 0.5 gives
[-0.5, 10.5]). -/
def XYDataSet.get_x_range (d : XYDataSet) (margin : ℚ) : ℚ × ℚ :=
  (d.xmin - margin, d.xmax + margin)

/-- Modelled from the spec: `dataset.get_y_range(margin)`. -/
def XYDataSet.get_y_range (d : XYDataSet) (margin : ℚ) : ℚ × ℚ :=
  (d.ymin - margin, d.ymax + margin)

/-- Modelled from the spec: `dataset.get_yres_range()` (residual extents). -/
def XYDataSet.get_yres_range (d : XYDataSet) : ℚ × ℚ :=
  d.yres_range

/-- `dataset.nfits`: the count of fits performed (fit-history accessor of
the external collaborator, kept consistent with the fit list). -/
def XYDataSet.nfits (d : XYDataSet) : Nat :=
  d.fits.length

/-- Modelled from the spec: `dataset.clear_fits()` clears the fit history. -/
def XYDataSet.clear_fits (d : XYDataSet) : XYDataSet :=
  { d with fits := [] }

/-- Modelled from the spec: `dataset.fit("linear")` performs a linear fit
(the numerics live in the external collaborator; its result is the
data carried in `linear_fit_result`) and appends it to the fit history. -/
def XYDataSet.fit_linear (d : XYDataSet) : XYDataSet :=
  { d with fits := d.fits ++ [d.linear_fit_result] }

/-- The shape of the `pars` argument of `Plot.add_function`, as
discriminated by the source's `isinstance` tests: absent (`None`), a
`qe.Measurement_Array` (uncertain parameter set, carried here by its
means), a plain `list`/`np.ndarray` of scalars, or anything else
(unrecognized). -/
inductive Pars where
  | pnone : Pars
  | marr (ps : List ℚ) : Pars
  | plain (ps : List ℚ) : Pars
  | other : Pars
deriving Inhabited

/-- The shape of a range argument of `Plot.set_plot_range`, as
discriminated by the source's `type(x_range) in ARRAY` test: absent
(`None`), a value of one of the collaborator's array types (carrying its
elements), or a value of any other type. -/
inductive RangeArg where
  | rnone : RangeArg
  | arr (l : List ℚ) : RangeArg
  | other : RangeArg
deriving Inhabited

/-- Modelled from the spec: one draw call issued to the render-primitives
collaborator (`qpu.plot_dataset`, `qpu.plot_function`) or to the figure
(`add_layout` of a text label). -/
inductive DrawCall where
  | plotDataset (dsName : String) (residual : Bool) (color : String) : DrawCall
  | plotFunction (legend : String) (color : String) (errorbandfactor : ℚ)
      (xdata : List ℚ) : DrawCall
  | addLabel (text : String) (x y : ℚ) : DrawCall
deriving Inhabited

/-- Modelled from the spec: a bokeh figure, reduced to the configuration
the source passes to `bp.figure` plus the list of draw calls issued on
it and the legend location set afterwards. -/
structure BokehFigure where
  tools : String
  width : Nat
  height : Nat
  y_axis_type : String
  y_range : ℚ × ℚ
  x_axis_type : String
  x_range : ℚ × ℚ
  title : Option String
  x_axis_label : Option String
  y_axis_label : Option String
  renderers : List DrawCall
  legend_location : String
deriving Inhabited

/-- The artifact returned by `populate_bokeh_figure`: either the main
figure alone, or (when residuals are shown) the `bi.gridplot` stack of
the main figure over the residual figure. -/
inductive RenderResult where
  | single (fig : BokehFigure) : RenderResult
  | grid (top bottom : BokehFigure) : RenderResult
deriving Inhabited

/-- The `Plot` object state: the fields assigned in `Plot.__init__` and
mutated by the methods under verification.  `bkfigure`/`bkres` are
`none` until first assigned (in Python the attributes do not exist until
then); `plot_para_filename` is `plot_para['filename']`; `axes` is the
(`xscale`, `yscale`) pair; `labels` is the label dict as an
insertion-ordered association list (values are `Option String` because
`data_name` may be `None`). -/
structure Plot where
  color_palette : List String
  color_count : Nat
  datasets : List XYDataSet
  datasets_colors : List String
  xunits : String
  xname : String
  yunits : String
  yname : String
  errorband_sigma : ℚ
  show_residuals : Bool
  x_range_margin : ℚ
  y_range_margin : ℚ
  x_range : ℚ × ℚ
  y_range : ℚ × ℚ
  dimensions : Nat × Nat
  user_functions_count : Nat
  user_functions : List (List ℚ → ℚ → ℚ)
  user_functions_pars : List Pars
  user_functions_names : List String
  user_functions_colors : List String
  axes : String × String
  legend_location : String
  labels : List (String × Option String)
  plot_para_filename : String
  bkfigure : Option RenderResult
  bkres : Option BokehFigure
  linear_fit_pars : Option FitRecord
deriving Inhabited

/-- Python-dict update on the insertion-ordered association list: replace
the value of an existing key in place, else append the new binding. -/
def dictSet (d : List (String × Option String)) (k : String) (v : Option String) :
    List (String × Option String) :=
  if d.any (fun p => p.1 == k) then
    d.map (fun p => if p.1 == k then (k, v) else p)
  else
    d ++ [(k, v)]

/-- Python-dict lookup: `some v` when the key is bound to `v`. -/
def dictGet (d : List (String × Option String)) (k : String) :
    Option (Option String) :=
  (d.find? (fun p => p.1 == k)).map Prod.snd

/-- Lookup defaulting to `none` (used only where the source reads keys
that are always present). -/
def dictGetD (d : List (String × Option String)) (k : String) : Option String :=
  match dictGet d k with
  | some v => v
  | none => none

/-- `np.linspace a b n`: n evenly spaced points from a to b inclusive. -/
def linspace (a b : ℚ) (n : Nat) : List ℚ :=
  (List.range n).map (fun i => a + (b - a) * i / (n - 1))

/-- `np.ndarray.max()` on the (always nonempty) sampled values. -/
def npMax : List ℚ → ℚ
  | [] => 0
  | x :: xs => xs.foldl max x

/-- `np.ndarray.min()` on the (always nonempty) sampled values. -/
def npMin : List ℚ → ℚ
  | [] => 0
  | x :: xs => xs.foldl min x

/-- The parameter-shortening in `populate_bokeh_figure`:
`split('_')`, then first part + "_" + last part. -/
def shortName (s : String) : String :=
  let parts := s.splitOn "_"
  parts.headI ++ "_" ++ parts.getLastD ""

/-- Replace the last element of a list (Python `l[-1] = d` on a nonempty
list; the empty case cannot arise at the call sites). -/
def replaceLast (l : List XYDataSet) (d : XYDataSet) : List XYDataSet :=
  match l with
  | [] => []
  | [_] => [d]
  | x :: rest => x :: replaceLast rest d

/-- Rename the last dataset (Python `self.datasets[-1].name = name`). -/
def setLastName (l : List XYDataSet) (nm : String) : List XYDataSet :=
  match l with
  | [] => []
  | [d] => [{ d with name := nm }]
  | d :: rest => d :: setLastName rest nm

/-- `Plot._get_color_from_palette`: increments `color_count` and indexes
the palette at `color_count - 1`.  The Python indexing raises
`IndexError` once the counter exceeds the palette size; that raise is
the `none` result. -/
def Plot.get_color_from_palette (p : Plot) : Option String × Plot :=
  let p1 : Plot := { p with color_count := p.color_count + 1 }
  (p1.color_palette.get? (p1.color_count - 1), p1)

/-- `Plot.set_range_from_dataset`. -/
def Plot.set_range_from_dataset (p : Plot) (dataset : XYDataSet) : Plot :=
  { p with x_range := dataset.get_x_range p.x_range_margin,
           y_range := dataset.get_y_range p.y_range_margin }

/-- `Plot.__init__` on the dataset-given path (the raw `x`/`y` path wraps
the arrays into an `XYDataSet` via the external collaborator first).
The constructor allocates the initial dataset's color from the fresh
palette cursor, takes names/units from the dataset, sets the margins to
0.5, derives the initial range from the dataset, and builds the label
dict (`'data'` holds the `data_name` argument, possibly `None`). -/
def Plot.init (dataset : XYDataSet) (data_name : Option String) : Option Plot :=
  let p0 : Plot := {
    color_palette := Set1_9
    color_count := 0
    datasets := [dataset]
    datasets_colors := []
    xunits := dataset.xunits
    xname := dataset.xname
    yunits := dataset.yunits
    yname := dataset.yname
    errorband_sigma := 1
    show_residuals := false
    x_range_margin := 1/2
    y_range_margin := 1/2
    x_range := (0, 0)
    y_range := (0, 0)
    dimensions := (600, 400)
    user_functions_count := 0
    user_functions := []
    user_functions_pars := []
    user_functions_names := []
    user_functions_colors := []
    axes := ("linear", "linear")
    legend_location := "top_left"
    labels := []
    plot_para_filename := "Plot"
    bkfigure := none
    bkres := none
    linear_fit_pars := none }
  let r := p0.get_color_from_palette
  match r.1 with
  | none => none
  | some c =>
    let p2 := { r.2 with datasets_colors := r.2.datasets_colors ++ [c] }
    let p3 := p2.set_range_from_dataset dataset
    some { p3 with labels :=
      [("title", some dataset.name),
       ("xtitle", some (p3.xname ++ " [" ++ p3.xunits ++ "]")),
       ("ytitle", some (p3.yname ++ " [" ++ p3.yunits ++ "]")),
       ("data", data_name)] }

/-- The state a `Plot` method runs in: the plot object, the uncertainty
provider's process-wide single-sample mode flag `qe.Measurement.minmax_n`
(modelled from the spec: "a global mode flag that toggles between
full-sampling and single-sample evaluation"), and the console log of
`print`ed messages. -/
structure QState where
  plot : Plot
  minmax_n : Nat
  console : List String
deriving Inhabited

/-- The console message printed by `add_function` for an unrecognized
parameter shape. -/
def parFormatErr : String :=
  "Error: Not a recognized format for parameter"

/-- The console message printed by `set_plot_range` for a bad x range
(the source's multi-line string, kept verbatim including whitespace). -/
def xRangeErr : String :=
  "X range must be a list containing a minimun and maximum
            value for the range of the plot."

/-- The console message printed by `set_plot_range` for a bad y range. -/
def yRangeErr : String :=
  "Y range must be a list containing a minimun and maximum
            value for the range of the plot."

/-- `Plot.add_dataset(dataset, color, name)`: appends the dataset,
resolves its color (explicit, else palette allocation — whose
`IndexError` is the `none` result), optionally renames the dataset just
appended, and expands the x/y ranges to cover the dataset's
margin-padded extents. -/
def QState.add_dataset (s : QState) (dataset : XYDataSet)
    (color name : Option String) : Option QState :=
  let p0 : Plot := { s.plot with datasets := s.plot.datasets ++ [dataset] }
  let colored : Option Plot :=
    match color with
    | none =>
      let r := p0.get_color_from_palette
      match r.1 with
      | some c => some { r.2 with datasets_colors := r.2.datasets_colors ++ [c] }
      | none => none
    | some c => some { p0 with datasets_colors := p0.datasets_colors ++ [c] }
  match colored with
  | none => none
  | some p2 =>
    let p3 : Plot :=
      match name with
      | some nm => { p2 with datasets := setLastName p2.datasets nm }
      | none => p2
    let xr := dataset.get_x_range p3.x_range_margin
    let yr := dataset.get_y_range p3.y_range_margin
    let p4 : Plot := { p3 with
      x_range := (if xr.1 < p3.x_range.1 then xr.1 else p3.x_range.1,
                  if xr.2 > p3.x_range.2 then xr.2 else p3.x_range.2),
      y_range := (if yr.1 < p3.y_range.1 then yr.1 else p3.y_range.1,
                  if yr.2 > p3.y_range.2 then yr.2 else p3.y_range.2) }
    some { s with plot := p4 }

/-- `Plot.add_function(function, pars, name, color)`: samples the
function over 100 evenly spaced points of the current x range; for an
uncertain parameter set (`Measurement_Array`) the evaluation runs with
`qe.Measurement.minmax_n` temporarily set to 1 and restored afterwards;
an unrecognized `pars` shape prints an error and returns with no state
change; otherwise the y range is expanded to the sampled extent plus
margin, the function/pars/name are appended, the function counter is
incremented, and the color is the explicit one or the next palette
allocation (whose `IndexError` is the `none` result). -/
def QState.add_function (s : QState) (f : List ℚ → ℚ → ℚ) (pars : Pars)
    (name color : Option String) : Option QState :=
  let xvals := linspace s.plot.x_range.1 s.plot.x_range.2 100
  let evalRes : Option (List ℚ × QState) :=
    match pars with
    | Pars.pnone => some (xvals.map (f []), s)
    | Pars.marr ps =>
      let recallN := s.minmax_n
      let s1 : QState := { s with minmax_n := 1 }
      let fvals := xvals.map (f ps)
      some (fvals, { s1 with minmax_n := recallN })
    | Pars.plain ps => some (xvals.map (f ps), s)
    | Pars.other => none
  match evalRes with
  | none => some { s with console := s.console ++ [parFormatErr] }
  | some (fvals, s2) =>
    let p0 := s2.plot
    let fmax := npMax fvals + p0.y_range_margin
    let fmin := npMin fvals - p0.y_range_margin
    let p1 : Plot := { p0 with
      y_range := (if fmin < p0.y_range.1 then fmin else p0.y_range.1,
                  if fmax > p0.y_range.2 then fmax else p0.y_range.2) }
    let p2 : Plot := { p1 with
      user_functions := p1.user_functions ++ [f],
      user_functions_pars := p1.user_functions_pars ++ [pars] }
    let fname : String :=
      match name with
      | none => "userf_" ++ toString p2.user_functions_count
      | some nm => nm
    let p3 : Plot := { p2 with
      user_functions_names := p2.user_functions_names ++ [fname],
      user_functions_count := p2.user_functions_count + 1 }
    match color with
    | some c =>
      some { s2 with plot :=
        { p3 with user_functions_colors := p3.user_functions_colors ++ [c] } }
    | none =>
      let r := p3.get_color_from_palette
      match r.1 with
      | some c =>
        some { s2 with plot :=
          { r.2 with user_functions_colors := r.2.user_functions_colors ++ [c] } }
      | none => none

/-- `Plot.set_plot_range(x_range, y_range)`: each of the two arguments
overwrites its stored range only when it is an array-typed value of
length 2; a `None` argument is skipped; anything else prints a usage
message and leaves the stored range untouched.  No path raises. -/
def QState.set_plot_range (s : QState) (x_range y_range : RangeArg) : QState :=
  let s1 : QState :=
    match x_range with
    | RangeArg.arr [a, b] => { s with plot := { s.plot with x_range := (a, b) } }
    | RangeArg.rnone => s
    | RangeArg.arr _ => { s with console := s.console ++ [xRangeErr] }
    | RangeArg.other => { s with console := s.console ++ [xRangeErr] }
  match y_range with
  | RangeArg.arr [a, b] => { s1 with plot := { s1.plot with y_range := (a, b) } }
  | RangeArg.rnone => s1
  | RangeArg.arr _ => { s1 with console := s1.console ++ [yRangeErr] }
  | RangeArg.other => { s1 with console := s1.console ++ [yRangeErr] }

/-- `Plot.set_labels(title, xtitle, ytitle, data_name)`: each present
argument overwrites one entry of the label dict.  Note the source
writes the `data_name` argument under the key `'Data'` (capital D,
line 229) while the constructor created the key `'data'`. -/
def Plot.set_labels (p : Plot) (title xtitle ytitle data_name : Option String) :
    Plot :=
  let p1 : Plot :=
    match title with
    | some t => { p with labels := dictSet p.labels "title" (some t) }
    | none => p
  let p2 : Plot :=
    match xtitle with
    | some t => { p1 with labels := dictSet p1.labels "xtitle" (some t) }
    | none => p1
  let p3 : Plot :=
    match ytitle with
    | some t => { p2 with labels := dictSet p2.labels "ytitle" (some t) }
    | none => p2
  match data_name with
  | some dn => { p3 with labels := dictSet p3.labels "Data" (some dn) }
  | none => p3

/-- `Plot.add_residuals()`: sets `show_residuals` iff the last dataset
has at least one recorded fit, otherwise does nothing.  (`none` is the
`IndexError` of `datasets[-1]` on an empty list, unreachable through the
constructor.) -/
def Plot.add_residuals (p : Plot) : Option Plot :=
  match p.datasets.getLast? with
  | none => none
  | some d =>
    if d.nfits > 0 then some { p with show_residuals := true } else some p

/-- The accumulated configuration of a `Plot` — everything
`populate_bokeh_figure` reads, plus the two allocation counters; i.e.
the whole `Plot` state except the cached bokeh objects
(`bkfigure`/`bkres`/`linear_fit_pars`) and the construction-time
constants not read while rendering. -/
structure PlotConfig where
  color_palette : List String
  color_count : Nat
  datasets : List XYDataSet
  datasets_colors : List String
  errorband_sigma : ℚ
  show_residuals : Bool
  x_range_margin : ℚ
  y_range_margin : ℚ
  x_range : ℚ × ℚ
  y_range : ℚ × ℚ
  dimensions : Nat × Nat
  user_functions_count : Nat
  user_functions : List (List ℚ → ℚ → ℚ)
  user_functions_pars : List Pars
  user_functions_names : List String
  user_functions_colors : List String
  axes : String × String
  legend_location : String
  labels : List (String × Option String)
deriving Inhabited

/-- Project the accumulated configuration out of a `Plot`. -/
def Plot.config (p : Plot) : PlotConfig :=
  { color_palette := p.color_palette
    color_count := p.color_count
    datasets := p.datasets
    datasets_colors := p.datasets_colors
    errorband_sigma := p.errorband_sigma
    show_residuals := p.show_residuals
    x_range_margin := p.x_range_margin
    y_range_margin := p.y_range_margin
    x_range := p.x_range
    y_range := p.y_range
    dimensions := p.dimensions
    user_functions_count := p.user_functions_count
    user_functions := p.user_functions
    user_functions_pars := p.user_functions_pars
    user_functions_names := p.user_functions_names
    user_functions_colors := p.user_functions_colors
    axes := p.axes
    legend_location := p.legend_location
    labels := p.labels }

/-- `Plot.initialize_bokeh_figure(residuals=False)`: the main figure,
built from dimensions, axis scales, current ranges and labels. -/
def mainFigure (c : PlotConfig) : BokehFigure :=
  { tools := "save, pan, box_zoom, wheel_zoom, reset"
    width := c.dimensions.1
    height := c.dimensions.2
    y_axis_type := c.axes.2
    y_range := c.y_range
    x_axis_type := c.axes.1
    x_range := c.x_range
    title := dictGetD c.labels "title"
    x_axis_label := dictGetD c.labels "xtitle"
    y_axis_label := dictGetD c.labels "ytitle"
    renderers := []
    legend_location := "top_right" }

/-- `Plot.initialize_bokeh_figure(residuals=True)`: the residual figure,
one third the height, linear y axis over the last dataset's residual
extents, sharing the main figure's x range.  `none` is the `IndexError`
of `datasets[-1]` on an empty list. -/
def resFigure (c : PlotConfig) (bk : BokehFigure) : Option BokehFigure :=
  match c.datasets.getLast? with
  | none => none
  | some d =>
    some
      { tools := "save, pan, box_zoom, wheel_zoom, reset"
        width := c.dimensions.1
        height := c.dimensions.2 / 3
        y_axis_type := "linear"
        y_range := d.get_yres_range
        x_axis_type := "linear"
        x_range := bk.x_range
        title := none
        x_axis_label := dictGetD c.labels "xtitle"
        y_axis_label := some "Residuals"
        renderers := []
        legend_location := "top_right" }

/-- The dataset loop of `populate_bokeh_figure`: for each dataset (with
its color read from `datasets_colors[count]`, whose `IndexError` is the
`none` result) draw the points; when the dataset has a fit, draw the
latest fit curve and — for the first dataset only — the shortened
fit-parameter labels at x=590, y=320+20*i; when residuals are shown,
also draw the residual points (collected for the residual figure). -/
def drawDatasets (colors : List String) (eb : ℚ) (showres : Bool) :
    List XYDataSet → Nat → Option (List DrawCall × List DrawCall)
  | [], _ => some ([], [])
  | d :: rest, count =>
    match colors.get? count with
    | none => none
    | some color =>
      let base := [DrawCall.plotDataset d.name false color]
      let fitPart : List DrawCall × List DrawCall :=
        match d.fits.getLast? with
        | some fr =>
          let fd := [DrawCall.plotFunction fr.fname color eb d.xdata]
          let lbls :=
            if count < 1 then
              (List.range fr.npars).map
                (fun i => DrawCall.addLabel (shortName (fr.par_reprs.getD i ""))
                  590 (320 + 20 * (i : ℚ)))
            else []
          let res := if showres then [DrawCall.plotDataset d.name true color] else []
          (fd ++ lbls, res)
        | none => ([], [])
      match drawDatasets colors eb showres rest (count + 1) with
      | none => none
      | some (mrest, rrest) =>
        some (base ++ fitPart.1 ++ mrest, fitPart.2 ++ rrest)

/-- The user-function loop of `populate_bokeh_figure`: `zip` truncates to
the shortest of the three lists (as Python `zip` does); the color is
read from `user_functions_colors[count]`, whose `IndexError` is the
`none` result. -/
def drawFns (colors : List String) (eb : ℚ) (xvals : List ℚ) :
    List (List ℚ → ℚ → ℚ) → List Pars → List String → Nat →
    Option (List DrawCall)
  | _ :: fs, _ :: prs, nm :: nms, count =>
    match colors.get? count with
    | none => none
    | some c =>
      match drawFns colors eb xvals fs prs nms (count + 1) with
      | none => none
      | some rest => some (DrawCall.plotFunction nm c eb xvals :: rest)
  | _, _, _, _ => some []

/-- The pure part of `populate_bokeh_figure`, a function of the
accumulated configuration only: builds the figures and draw calls and
returns the render result together with the residual figure (when one
was created, to be stored in `bkres`). -/
def renderConfig (c : PlotConfig) : Option (RenderResult × Option BokehFigure) :=
  let bk0 := mainFigure c
  let bres : Option (Option BokehFigure) :=
    if c.show_residuals then
      match resFigure c bk0 with
      | none => none
      | some r => some (some r)
    else some none
  match bres with
  | none => none
  | some resfig =>
    match drawDatasets c.datasets_colors c.errorband_sigma c.show_residuals
        c.datasets 0 with
    | none => none
    | some (mainDraws, resDraws) =>
      let xvals := [c.x_range.1 + c.x_range_margin, c.x_range.2 - c.x_range_margin]
      match drawFns c.user_functions_colors c.errorband_sigma xvals
          c.user_functions c.user_functions_pars c.user_functions_names 0 with
      | none => none
      | some fnDraws =>
        let bk1 : BokehFigure := { bk0 with
          renderers := mainDraws ++ fnDraws,
          legend_location := c.legend_location }
        match resfig with
        | some r =>
          let r1 : BokehFigure := { r with renderers := resDraws }
          some (RenderResult.grid bk1 r1, some r1)
        | none => some (RenderResult.single bk1, none)

/-- `Plot.populate_bokeh_figure()`: builds the figures from the current
state, stores the result in `self.bkfigure` (and the residual figure in
`self.bkres` when residuals are shown), and returns it. -/
def Plot.populate_bokeh_figure (p : Plot) : Option (Plot × RenderResult) :=
  match renderConfig p.config with
  | none => none
  | some (fig, resfig) =>
    some ({ p with
      bkfigure := some fig,
      bkres := match resfig with | some r => some r | none => p.bkres }, fig)

/-- `Plot.show_linear_fit(output)`: warns when more than one dataset is
present, clears the fits of the last dataset, performs a linear fit on
it, extends the x range down to -0.5 when its lower bound is above that
(re-basing the y lower bound to the fit value there), rebuilds the main
figure with the dataset and the fit drawn over it, stores the fit
parameters for `interact_linear_fit`, and shows the figure.  `none` is
the `IndexError` of `[-1]` on an empty list. -/
def QState.show_linear_fit (s : QState) : Option QState :=
  let con1 : List String :=
    if s.plot.datasets.length > 1 then
      s.console ++
        ["Warning: only using the last added dataset, and clearing previous fits"]
    else s.console
  match s.plot.datasets.getLast?, s.plot.datasets_colors.getLast? with
  | some d0, some color =>
    let d1 := d0.clear_fits.fit_linear
    let p0 : Plot := { s.plot with datasets := replaceLast s.plot.datasets d1 }
    let fr := d1.fits.getLastD d1.linear_fit_result
    let p1 : Plot :=
      if p0.x_range.1 > -(1/2) then
        { p0 with x_range := (-(1/2), p0.x_range.2),
                  y_range := (fr.f fr.par_means (-(1/2)), p0.y_range.2) }
      else p0
    let bk0 := mainFigure p1.config
    let xvals := [p1.x_range.1 + p1.x_range_margin, p1.x_range.2 - p1.x_range_margin]
    let bk1 : BokehFigure := { bk0 with
      renderers := [DrawCall.plotDataset d1.name false color,
                    DrawCall.plotFunction "linear" color p1.errorband_sigma xvals],
      legend_location := p1.legend_location }
    some { s with
      console := con1,
      plot := { p1 with
        bkfigure := some (RenderResult.single bk1),
        linear_fit_pars := some fr } }
  | _, _ => none

/-- One user call on the plot, for reasoning about call sequences. -/
inductive PlotOp where
  | addDataset (d : XYDataSet) (color name : Option String) : PlotOp
  | addFunction (f : List ℚ → ℚ → ℚ) (pars : Pars)
      (name color : Option String) : PlotOp

/-- Apply one call. -/
def QState.step (s : QState) : PlotOp → Option QState
  | PlotOp.addDataset d color name => s.add_dataset d color name
  | PlotOp.addFunction f pars name color => s.add_function f pars name color

/-- Apply a sequence of calls, stopping at the first raised exception. -/
def QState.run (s : QState) : List PlotOp → Option QState
  | [] => some s
  | op :: ops =>
    match s.step op with
    | none => none
    | some s1 => s1.run ops

/-- The parameter values an evaluated `pars` passes to the function
(empty for the no-parameter call `function(xvals)`). -/
def parsArgs : Pars → List ℚ
  | Pars.pnone => []
  | Pars.marr ps => ps
  | Pars.plain ps => ps
  | Pars.other => []

/-- The range obligation one call creates, relative to the state
`atAdd` in which the call ran: a dataset's margin-padded x and y extents
must lie inside the final ranges; a recognized function's sampled y
extent (over `atAdd`'s x range) plus margin must lie inside the final y
range; an unrecognized-parameter call creates no obligation. -/
def opEnclosed (atAdd final : Plot) : PlotOp → Prop
  | PlotOp.addDataset d _ _ =>
    final.x_range.1 ≤ (d.get_x_range atAdd.x_range_margin).1 ∧
    (d.get_x_range atAdd.x_range_margin).2 ≤ final.x_range.2 ∧
    final.y_range.1 ≤ (d.get_y_range atAdd.y_range_margin).1 ∧
    (d.get_y_range atAdd.y_range_margin).2 ≤ final.y_range.2
  | PlotOp.addFunction f pars _ _ =>
    match pars with
    | Pars.other => True
    | _ =>
      let fvals := (linspace atAdd.x_range.1 atAdd.x_range.2 100).map
        (f (parsArgs pars))
      final.y_range.1 ≤ npMin fvals - atAdd.y_range_margin ∧
      npMax fvals + atAdd.y_range_margin ≤ final.y_range.2

/-- `q`'s ranges contain `p`'s ranges (ranges only ever widen under the
add calls). -/
def rangeLe (p q : Plot) : Prop :=
  q.x_range.1 ≤ p.x_range.1 ∧ p.x_range.2 ≤ q.x_range.2 ∧
  q.y_range.1 ≤ p.y_range.1 ∧ p.y_range.2 ≤ q.y_range.2

/-! Concrete sample data, used by witnesses and counterexamples. -/

/-- A sample linear fit record (slope 2, offset 3). -/
def fitW : FitRecord :=
  { fname := "linear"
    npars := 2
    par_reprs := ["slope_data_0", "offset_data_1"]
    par_means := [3, 2]
    f := fun ps x => ps.headI + ps.getLastD 0 * x }

/-- A sample dataset spanning x in [0,10], y in [0,5] (the spec's
scenario data). -/
def dW : XYDataSet :=
  { name := "dataW"
    xname := "x"
    yname := "y"
    xunits := "m"
    yunits := "s"
    xdata := [0, 1, 2]
    xmin := 0
    xmax := 10
    ymin := 0
    ymax := 5
    yres_range := (-1, 1)
    fits := []
    linear_fit_result := fitW }

/-- A second sample dataset spanning x in [-2,2], y in [1,3]. -/
def d2W : XYDataSet :=
  { dW with name := "data2", xmin := -2, xmax := 2, ymin := 1, ymax := 3 }

/-- A sample dataset carrying one recorded fit. -/
def dFitW : XYDataSet :=
  { dW with fits := [fitW] }

/-- A constant sample function. -/
def fconstW : List ℚ → ℚ → ℚ := fun _ _ => 7

/-- A freshly constructed sample plot on `dW`. -/
def pW : Plot := (Plot.init dW (some "d0")).getD default

/-- The sample plot with the uncertainty flag at its qexpy default 100
and an empty console. -/
def q0W : QState := { plot := pW, minmax_n := 100, console := [] }

/-- The fresh plot with its dataset replaced by the fitted one. -/
def pFitW : Plot := { pW with datasets := [dFitW] }

/-- `set_labels(data_name="new")` applied to the fresh sample plot. -/
def pLabelsW : Plot := pW.set_labels none none none (some "new")

/-- The sample add-function op with no explicit color. -/
def fOpW : PlotOp := PlotOp.addFunction fconstW Pars.pnone none none

/-- The sample add-dataset op with no explicit color. -/
def opDW : PlotOp := PlotOp.addDataset d2W none none

/-- First automatic-color `add_function` on the fresh plot. -/
def q1W : QState := (q0W.add_function fconstW Pars.pnone none none).getD default

/-- State after eight automatic-color `add_function` calls (palette
cursor at 9). -/
def q8W : QState := (q0W.run (List.replicate 8 fOpW)).getD default

/-- `add_function` with an uncertain parameter set on the fresh plot. -/
def qMarrW : QState :=
  (q0W.add_function fconstW (Pars.marr [1, 2]) none none).getD default

/-- `show_linear_fit` on the fresh plot. -/
def qLinW : QState := (q0W.show_linear_fit).getD default

/-- `populate_bokeh_figure` on the fresh plot. -/
def popW : Plot × RenderResult := (pW.populate_bokeh_figure).getD default

/-- Result of running `add_dataset d2W` then an automatic-color
`add_function` on the fresh plot. -/
def sfW : QState := (q0W.run [opDW, fOpW]).getD default

/-- Intermediate state after the `add_dataset d2W` step alone. -/
def rW : QState := (q0W.step opDW).getD default

/-! Theorems settling the claims. -/

/-- Claim C3: `add_function` with a `pars` argument of unrecognized form
reports a usage error on the console, does not raise, and leaves the
entire plot state (and the uncertainty flag) unchanged: the returned
state differs from the input only by the appended error message. -/
theorem add_function_unrecognized_pars_noop (s : QState)
    (f : List ℚ → ℚ → ℚ) (name color : Option String) :
    s.add_function f Pars.other name color =
      some { s with console := s.console ++ [parFormatErr] } ∧
    (s.add_function f Pars.other name color).map QState.plot = some s.plot ∧
    (s.add_function f Pars.other name color).map QState.minmax_n =
      some s.minmax_n :=
  ⟨rfl, rfl, rfl⟩

/-- Claim C4: `set_plot_range` overwrites a stored range exactly when the
corresponding argument is an array-typed 2-element value; any other
non-absent argument only appends a usage message to the console, leaving
the stored range untouched; no argument shape raises (the operation is
total). -/
theorem set_plot_range_two_element_only (s : QState) (xa ya : RangeArg) :
    (s.set_plot_range xa ya).plot.x_range =
      (match xa with
       | RangeArg.arr [a, b] => (a, b)
       | _ => s.plot.x_range) ∧
    (s.set_plot_range xa ya).plot.y_range =
      (match ya with
       | RangeArg.arr [a, b] => (a, b)
       | _ => s.plot.y_range) ∧
    (s.set_plot_range xa ya).console =
      s.console ++
        (match xa with
         | RangeArg.rnone => []
         | RangeArg.arr [_, _] => []
         | _ => [xRangeErr]) ++
        (match ya with
         | RangeArg.rnone => []
         | RangeArg.arr [_, _] => []
         | _ => [yRangeErr]) := by
  rcases xa with _ | lx | _ <;> rcases ya with _ | ly | _ <;>
    first
    | (rcases lx with _ | ⟨a, _ | ⟨b, _ | tx⟩⟩ <;>
        rcases ly with _ | ⟨c, _ | ⟨e, _ | ty⟩⟩ <;>
        simp [QState.set_plot_range])
    | (rcases lx with _ | ⟨a, _ | ⟨b, _ | tx⟩⟩ <;>
        simp [QState.set_plot_range])
    | (rcases ly with _ | ⟨c, _ | ⟨e, _ | ty⟩⟩ <;>
        simp [QState.set_plot_range])
    | simp [QState.set_plot_range]

/-- Claim C7 (code bug evidence): on the fresh sample plot (constructed
with `data_name="d0"`), `set_labels(data_name="new")` leaves the
dataset-label entry `'data'` established at construction unchanged and
instead appends a new entry under the key `'Data'`. -/
theorem set_labels_data_key_mismatch :
    dictGet pLabelsW.labels "data" = some (some "d0") ∧
    dictGet pLabelsW.labels "Data" = some (some "new") :=
  ⟨rfl, rfl⟩

/-- Claim C10: `add_residuals` turns residual display on exactly when the
most-recently-added dataset has at least one recorded fit; when that
dataset has no fits the call returns with the state unchanged (so
`show_residuals` keeps its prior value, in particular stays `false` on a
fresh plot). -/
theorem add_residuals_requires_fit (p : Plot) (d : XYDataSet)
    (h : p.datasets.getLast? = some d) :
    (0 < d.nfits → p.add_residuals = some { p with show_residuals := true }) ∧
    (d.nfits = 0 → p.add_residuals = some p) := by
  unfold Plot.add_residuals
  rw [h]
  dsimp only
  constructor
  · intro hn
    rw [if_pos hn]
  · intro hn
    rw [if_neg (by omega : ¬ d.nfits > 0)]

/-- Witness for C10: on the fresh sample plot (last dataset unfitted) the
call is a no-op; on the variant whose dataset carries a fit it sets
`show_residuals`. -/
theorem add_residuals_requires_fit_witness :
    Plot.add_residuals pW = some pW ∧
    Plot.add_residuals pFitW = some { pFitW with show_residuals := true } :=
  ⟨(add_residuals_requires_fit pW dW rfl).2 rfl,
   (add_residuals_requires_fit pFitW dFitW rfl).1 (by decide)⟩

/-- Claim C6 (counterexample): on a freshly constructed plot the first
automatic-color `add_function` is assigned `palette[1]` (`"#377eb8"`),
not `palette[0]` (`"#e41a1c"`) as claimed — the constructor's initial
dataset already consumed `palette[0]`. -/
theorem two_addFunction_colors_cex :
    q1W.plot.user_functions_colors = ["#377eb8"] ∧
    Set1_9.get? 0 = some "#e41a1c" ∧
    ("#377eb8" : String) ≠ "#e41a1c" :=
  ⟨rfl, rfl, by decide⟩

/-- Claim C6 (amended): on any freshly constructed plot, two consecutive
`add_function` calls with no color specified are assigned two distinct
colors, equal to `palette[1]` then `palette[2]` (the constructor's
initial dataset consumes `palette[0]`). -/
theorem two_addFunction_colors_amended (d : XYDataSet) (dn : Option String)
    (f g : List ℚ → ℚ → ℚ) (mn : Nat) (con : List String) :
    ((Plot.init d dn).bind (fun p =>
        (QState.mk p mn con).add_function f Pars.pnone none none)).map
      (fun q => q.plot.user_functions_colors) = some ["#377eb8"] ∧
    (((Plot.init d dn).bind (fun p =>
        (QState.mk p mn con).add_function f Pars.pnone none none)).bind
      (fun q => q.add_function g Pars.pnone none none)).map
      (fun q => q.plot.user_functions_colors) = some ["#377eb8", "#4daf4a"] ∧
    Set1_9.get? 1 = some "#377eb8" ∧
    Set1_9.get? 2 = some "#4daf4a" ∧
    ("#377eb8" : String) ≠ "#4daf4a" :=
  ⟨rfl, rfl, rfl, rfl, by decide⟩

/-- Claim C1 (counterexample): the palette does not wrap.  From the fresh
sample plot, eight automatic-color `add_function` calls bring the
cursor to 9 (allocations 2..9 succeeded); the next automatic allocation
— the 10th made by this plot — raises (the add call fails), whereas the
claimed formula `palette[(10-1) mod 9]` would give `"#e41a1c"`. -/
theorem palette_allocation_cex :
    q0W.run (List.replicate 8 fOpW) = some q8W ∧
    q8W.plot.color_count = 9 ∧
    q8W.step fOpW = none ∧
    q8W.plot.color_palette.get? ((10 - 1) % q8W.plot.color_palette.length) =
      some "#e41a1c" :=
  ⟨rfl, rfl, rfl, rfl⟩

/-- Claim C1 (amended): the k-th automatic color allocation increments
the cursor to k and returns `palette[k-1]` as long as `k` does not
exceed the palette size; once it does, the allocation fails with an
index error (no wraparound). -/
theorem palette_allocation_amended (p : Plot) (k : Nat)
    (hk : p.color_count + 1 = k) :
    (p.get_color_from_palette).2.color_count = k ∧
    (k ≤ p.color_palette.length →
      (p.get_color_from_palette).1 = p.color_palette.get? (k - 1) ∧
      (p.color_palette.get? (k - 1)).isSome = true) ∧
    (p.color_palette.length < k → (p.get_color_from_palette).1 = none) := by
  subst hk
  unfold Plot.get_color_from_palette
  refine ⟨rfl, fun h => ⟨rfl, ?_⟩, fun h => ?_⟩
  · have hlt : p.color_count < p.color_palette.length := by omega
    rw [Nat.add_sub_cancel, List.get?_eq_getElem?,
      List.getElem?_eq_getElem hlt]
    rfl
  · dsimp only
    rw [Nat.add_sub_cancel, List.get?_eq_getElem?]
    exact List.getElem?_eq_none (by omega)

/-- Witness for the amended C1: on the fresh sample plot (cursor 1) the
2nd allocation returns the palette entry at index 1 and moves the
cursor to 2. -/
theorem palette_allocation_amended_witness :
    (pW.get_color_from_palette).2.color_count = 2 ∧
    (pW.get_color_from_palette).1 = pW.color_palette.get? (2 - 1) ∧
    (pW.color_palette.get? (2 - 1)).isSome = true :=
  ⟨(palette_allocation_amended pW 2 rfl).1,
   ((palette_allocation_amended pW 2 rfl).2.1 (by decide)).1,
   ((palette_allocation_amended pW 2 rfl).2.1 (by decide)).2⟩

/-- Claim C5: `add_function` with an uncertain parameter set
(`Measurement_Array`) restores the uncertainty provider's
`Measurement.minmax_n` flag to its prior value whenever the call
returns normally, despite temporarily setting it to 1 during
evaluation. -/
theorem add_function_restores_minmax_n (s : QState) (f : List ℚ → ℚ → ℚ)
    (ps : List ℚ) (name color : Option String) (t : QState)
    (h : s.add_function f (Pars.marr ps) name color = some t) :
    t.minmax_n = s.minmax_n := by
  unfold QState.add_function at h
  dsimp only at h
  rcases color with _ | c
  · dsimp only at h
    split at h
    · simp only [Option.some.injEq] at h
      subst h
      rfl
    · cases h
  · simp only [Option.some.injEq] at h
    subst h
    rfl

/-- Witness for C5: on the fresh sample plot the uncertain-parameter
`add_function` leaves the flag at its prior value 100. -/
theorem add_function_restores_minmax_n_witness :
    qMarrW.minmax_n = q0W.minmax_n :=
  add_function_restores_minmax_n q0W fconstW [1, 2] none none qMarrW rfl

/-- Claim C9: after `show_linear_fit` returns, the stored x range's lower
bound is at most -0.5, and it is unchanged when it was already at most
-0.5. -/
theorem show_linear_fit_extends_x_range (s t : QState)
    (h : s.show_linear_fit = some t) :
    t.plot.x_range.1 ≤ -(1/2) ∧
    (s.plot.x_range.1 ≤ -(1/2) → t.plot.x_range.1 = s.plot.x_range.1) := by
  unfold QState.show_linear_fit at h
  dsimp only at h
  split at h
  · simp only [Option.some.injEq] at h
    subst h
    dsimp only
    constructor
    · split
      · exact le_refl _
      · next hx =>
        dsimp only
        linarith [not_lt.mp hx]
    · intro hle
      split
      · next hx => linarith
      · rfl
  · cases h

/-- Witness for C9: `show_linear_fit` on the fresh sample plot leaves the
x lower bound at -0.5. -/
theorem show_linear_fit_extends_x_range_witness :
    qLinW.plot.x_range.1 ≤ -(1/2) :=
  (show_linear_fit_extends_x_range q0W qLinW rfl).1

/-- Helper for C8: when the pure render succeeds on a plot's
configuration, `populate_bokeh_figure` returns that figure and a plot
whose configuration is unchanged. -/
theorem populate_map_of_renderConfig (q : Plot) (fg : RenderResult)
    (rf : Option BokehFigure) (h : renderConfig q.config = some (fg, rf)) :
    (q.populate_bokeh_figure).map Prod.snd = some fg ∧
    (q.populate_bokeh_figure).map (fun r => (r.1).config) = some q.config := by
  unfold Plot.populate_bokeh_figure
  rw [h]
  exact ⟨rfl, rfl⟩

/-- Claim C8: `populate_bokeh_figure` is a deterministic, idempotent read
of the accumulated configuration: it leaves the configuration (datasets,
colors, functions, ranges, labels, counters) unchanged, and a second
call on the returned state succeeds and produces an equal (freshly
built) figure, again leaving the configuration at its original value. -/
theorem populate_idempotent_read (p p1 : Plot) (fig : RenderResult)
    (h : p.populate_bokeh_figure = some (p1, fig)) :
    p1.config = p.config ∧
    (p1.populate_bokeh_figure).map Prod.snd = some fig ∧
    (p1.populate_bokeh_figure).map (fun r => (r.1).config) = some p.config := by
  unfold Plot.populate_bokeh_figure at h
  rcases hr : renderConfig p.config with _ | ⟨fig2, resfig⟩
  · rw [hr] at h
    cases h
  · rw [hr] at h
    dsimp only at h
    simp only [Option.some.injEq, Prod.mk.injEq] at h
    obtain ⟨h1, h2⟩ := h
    subst h2
    have hcfg : Plot.config p1 = Plot.config p := by
      subst h1
      rfl
    have hr2 : renderConfig (Plot.config p1) = some (fig2, resfig) := by
      rw [hcfg]
      exact hr
    exact ⟨hcfg, (populate_map_of_renderConfig p1 fig2 resfig hr2).1,
      (populate_map_of_renderConfig p1 fig2 resfig hr2).2.trans
        (congrArg some hcfg)⟩

/-- Witness for C8: the fresh sample plot renders successfully and
the theorem's conclusions hold for it. -/
theorem populate_idempotent_read_witness :
    popW.1.config = pW.config ∧
    ((popW.1).populate_bokeh_figure).map Prod.snd = some popW.2 ∧
    ((popW.1).populate_bokeh_figure).map (fun r => (r.1).config) =
      some pW.config :=
  populate_idempotent_read pW popW.1 popW.2 rfl

/-- Ranges contain themselves. -/
theorem rangeLe_refl (p : Plot) : rangeLe p p :=
  ⟨le_refl _, le_refl _, le_refl _, le_refl _⟩

/-- Range containment is transitive. -/
theorem rangeLe_trans {p q r : Plot} (h1 : rangeLe p q) (h2 : rangeLe q r) :
    rangeLe p r :=
  ⟨le_trans h2.1 h1.1, le_trans h1.2.1 h2.2.1,
   le_trans h2.2.2.1 h1.2.2.1, le_trans h1.2.2.2 h2.2.2.2⟩

/-- One successful `addDataset`/`addFunction` step only widens the ranges
and immediately encloses its own obligation. -/
theorem step_spec (s s' : QState) (op : PlotOp) (h : s.step op = some s') :
    rangeLe s.plot s'.plot ∧ opEnclosed s.plot s'.plot op := by
  cases op with
  | addDataset d color name =>
    unfold QState.step QState.add_dataset Plot.get_color_from_palette at h
    rcases color with _ | c
    · dsimp only at h
      split at h
      · cases h
      · next p2 heq =>
        split at heq
        · next cc heq2 =>
          simp only [Option.some.injEq] at heq
          subst heq
          simp only [Option.some.injEq] at h
          subst h
          rcases name with _ | nm <;>
            exact ⟨⟨by dsimp only; split <;> linarith,
                    by dsimp only; split <;> linarith,
                    by dsimp only; split <;> linarith,
                    by dsimp only; split <;> linarith⟩,
                   ⟨by dsimp only; split <;> linarith,
                    by dsimp only; split <;> linarith,
                    by dsimp only; split <;> linarith,
                    by dsimp only; split <;> linarith⟩⟩
        · cases heq
    · dsimp only at h
      simp only [Option.some.injEq] at h
      subst h
      rcases name with _ | nm <;>
        exact ⟨⟨by dsimp only; split <;> linarith,
                by dsimp only; split <;> linarith,
                by dsimp only; split <;> linarith,
                by dsimp only; split <;> linarith⟩,
               ⟨by dsimp only; split <;> linarith,
                by dsimp only; split <;> linarith,
                by dsimp only; split <;> linarith,
                by dsimp only; split <;> linarith⟩⟩
  | addFunction f pars name color =>
    unfold QState.step QState.add_function Plot.get_color_from_palette at h
    cases pars with
    | other =>
      dsimp only at h
      simp only [Option.some.injEq] at h
      subst h
      exact ⟨rangeLe_refl _, trivial⟩
    | pnone =>
      dsimp only at h
      rcases color with _ | c
      · dsimp only at h
        split at h
        · next cc heq =>
          simp only [Option.some.injEq] at h
          subst h
          exact ⟨⟨le_refl _, le_refl _,
                  by dsimp only [parsArgs]; split <;> linarith,
                  by dsimp only [parsArgs]; split <;> linarith⟩,
                 ⟨by dsimp only [parsArgs]; split <;> linarith,
                  by dsimp only [parsArgs]; split <;> linarith⟩⟩
        · cases h
      · dsimp only at h
        simp only [Option.some.injEq] at h
        subst h
        exact ⟨⟨le_refl _, le_refl _,
                by dsimp only [parsArgs]; split <;> linarith,
                by dsimp only [parsArgs]; split <;> linarith⟩,
               ⟨by dsimp only [parsArgs]; split <;> linarith,
                by dsimp only [parsArgs]; split <;> linarith⟩⟩
    | marr ps =>
      dsimp only at h
      rcases color with _ | c
      · dsimp only at h
        split at h
        · next cc heq =>
          simp only [Option.some.injEq] at h
          subst h
          exact ⟨⟨le_refl _, le_refl _,
                  by dsimp only [parsArgs]; split <;> linarith,
                  by dsimp only [parsArgs]; split <;> linarith⟩,
                 ⟨by dsimp only [parsArgs]; split <;> linarith,
                  by dsimp only [parsArgs]; split <;> linarith⟩⟩
        · cases h
      · dsimp only at h
        simp only [Option.some.injEq] at h
        subst h
        exact ⟨⟨le_refl _, le_refl _,
                by dsimp only [parsArgs]; split <;> linarith,
                by dsimp only [parsArgs]; split <;> linarith⟩,
               ⟨by dsimp only [parsArgs]; split <;> linarith,
                by dsimp only [parsArgs]; split <;> linarith⟩⟩
    | plain ps =>
      dsimp only at h
      rcases color with _ | c
      · dsimp only at h
        split at h
        · next cc heq =>
          simp only [Option.some.injEq] at h
          subst h
          exact ⟨⟨le_refl _, le_refl _,
                  by dsimp only [parsArgs]; split <;> linarith,
                  by dsimp only [parsArgs]; split <;> linarith⟩,
                 ⟨by dsimp only [parsArgs]; split <;> linarith,
                  by dsimp only [parsArgs]; split <;> linarith⟩⟩
        · cases h
      · dsimp only at h
        simp only [Option.some.injEq] at h
        subst h
        exact ⟨⟨le_refl _, le_refl _,
                by dsimp only [parsArgs]; split <;> linarith,
                by dsimp only [parsArgs]; split <;> linarith⟩,
               ⟨by dsimp only [parsArgs]; split <;> linarith,
                by dsimp only [parsArgs]; split <;> linarith⟩⟩

/-- A successful run of a call sequence only widens the ranges. -/
theorem run_mono (s s' : QState) (ops : List PlotOp)
    (h : s.run ops = some s') : rangeLe s.plot s'.plot := by
  induction ops generalizing s with
  | nil =>
    simp only [QState.run, Option.some.injEq] at h
    subst h
    exact rangeLe_refl _
  | cons op rest ih =>
    unfold QState.run at h
    split at h
    · cases h
    · next s1 heq =>
      exact rangeLe_trans (step_spec s s1 op heq).1 (ih s1 h)

/-- `run` distributes over list append. -/
theorem run_append (s : QState) (l1 l2 : List PlotOp) :
    s.run (l1 ++ l2) =
      match s.run l1 with
      | none => none
      | some t => t.run l2 := by
  induction l1 generalizing s with
  | nil => rfl
  | cons op rest ih =>
    simp only [List.cons_append, QState.run]
    cases s.step op with
    | none => rfl
    | some s1 => exact ih s1

/-- An obligation met by a state is met by any range-wider state. -/
theorem opEnclosed_mono {a p q : Plot} (op : PlotOp)
    (h : opEnclosed a p op) (hle : rangeLe p q) : opEnclosed a q op := by
  obtain ⟨hx1, hx2, hy1, hy2⟩ := hle
  cases op with
  | addDataset d c n =>
    obtain ⟨e1, e2, e3, e4⟩ := h
    exact ⟨le_trans hx1 e1, le_trans e2 hx2,
           le_trans hy1 e3, le_trans e4 hy2⟩
  | addFunction f pars n c =>
    cases pars with
    | other => trivial
    | pnone =>
      obtain ⟨e1, e2⟩ := h
      exact ⟨le_trans hy1 e1, le_trans e2 hy2⟩
    | marr ps =>
      obtain ⟨e1, e2⟩ := h
      exact ⟨le_trans hy1 e1, le_trans e2 hy2⟩
    | plain ps =>
      obtain ⟨e1, e2⟩ := h
      exact ⟨le_trans hy1 e1, le_trans e2 hy2⟩

/-- Claim C2: for every successful sequence of `addDataset`/`addFunction`
calls, the final x/y ranges enclose the margin-padded extent of every
dataset added and the margin-padded sampled y extent of every function
added (each evaluated over the x range current at its addition): here
stated for the call `op` at an arbitrary position of the sequence. -/
theorem ranges_enclose_all_additions (s0 q r sf : QState)
    (pre suf : List PlotOp) (op : PlotOp)
    (hpre : s0.run pre = some q) (hop : q.step op = some r)
    (hall : s0.run (pre ++ op :: suf) = some sf) :
    opEnclosed q.plot sf.plot op := by
  rw [run_append, hpre] at hall
  dsimp only at hall
  unfold QState.run at hall
  rw [hop] at hall
  dsimp only at hall
  exact opEnclosed_mono op (step_spec q r op hop).2 (run_mono r sf suf hall)

/-- Witness for C2: on the fresh sample plot, after adding dataset `d2W`
and then a function, the final ranges enclose the dataset's padded
extent as recorded at its addition. -/
theorem ranges_enclose_all_additions_witness :
    opEnclosed q0W.plot sfW.plot opDW :=
  ranges_enclose_all_additions q0W q0W rW sfW [] [fOpW] opDW rfl rfl rfl

end QPlot
